import Mathlib

/-!
Verification of the temporal-aggregation and extreme-event analytics engine
of the clicom-mex backend (src/backend/app/data_loader.py and the request
validation in src/backend/app/estaciones.py).

The daily series of a station is modelled as a list of rows, each carrying a
calendar date and an association list from column name to an optional rational
value (`none` models a NaN cell).  Pandas groupby/agg pipelines are modelled by
explicit key extraction, ascending key sort (pandas sorts group keys), group
filtering and per-column reduction.  Floating point is modelled by ℚ; numpy
round-half-to-even is modelled exactly on ℚ.
-/

namespace Clicom

/-- A calendar date (no time component), as produced by pd.to_datetime. -/
structure Date where
  y : ℕ
  m : ℕ
  d : ℕ
deriving DecidableEq

/-- Chronological order on dates: lexicographic on (year, month, day). -/
def Date.le (a b : Date) : Bool :=
  decide (a.y < b.y ∨ (a.y = b.y ∧ (a.m < b.m ∨ (a.m = b.m ∧ a.d ≤ b.d))))

/-- One row of a station DataFrame: the Fecha value plus the vbl columns.
A `none` cell models a NaN value; a column missing from the list also reads
as NaN. -/
structure Row where
  date : Date
  vals : List (String × Option ℚ)
deriving DecidableEq

/-- Reading a cell of a row: `df.loc[row, c]`, where NaN is `none`. -/
def getVal (r : Row) (c : String) : Option ℚ :=
  (r.vals.lookup c).join

/-- The in-memory station data built by load_station_data: the list of columns
(Fecha excluded, the Python field named variables), the numeric-dtype columns
as seen by select_dtypes, and the rows (sorted by date at load time;
sortedness is not needed by the claims). -/
structure Station where
  vars : List String
  numericCols : List String
  rows : List Row
deriving DecidableEq

/-- filter_data_by_date: keep rows inside the inclusive date interval; an
absent bound does not constrain.  Mirrors the two sequential Boolean-mask
filters of the source. -/
def filter_data_by_date (rows : List Row) (s e : Option Date) : List Row :=
  rows.filter (fun r =>
    (match s with
     | none => true
     | some sd => Date.le sd r.date) &&
    (match e with
     | none => true
     | some ed => Date.le r.date ed))

/-! ### Sorting of group keys (pandas sorts groupby keys ascending) -/

/-- Insert into a list sorted by the Boolean relation le. -/
def insertLe {α : Type} (le : α → α → Bool) (x : α) : List α → List α
  | [] => [x]
  | y :: ys => if le x y then x :: y :: ys else y :: insertLe le x ys

/-- Insertion sort by a Boolean relation. -/
def sortLe {α : Type} (le : α → α → Bool) (l : List α) : List α :=
  l.foldr (insertLe le) []

/-- Natural-number order as a Boolean relation. -/
def natLeB (a b : ℕ) : Bool := decide (a ≤ b)

/-- Lexicographic product order from two Boolean relations. -/
def pairLeB {α β : Type} [DecidableEq α] (leA : α → α → Bool) (leB : β → β → Bool)
    (p q : α × β) : Bool :=
  if p.1 = q.1 then leB p.2 q.2 else leA p.1 q.1

/-- Lexicographic order on lists of naturals. -/
def natListLe : List ℕ → List ℕ → Bool
  | [], _ => true
  | _ :: _, [] => false
  | a :: as, b :: bs =>
    if a < b then true else if b < a then false else natListLe as bs

/-- Python string order: lexicographic on Unicode code points. -/
def strLeB (s t : String) : Bool :=
  natListLe (s.data.map Char.toNat) (t.data.map Char.toNat)

/-- The sorted groupby keys of a list of rows: dedup then ascending sort. -/
def keysOf {κ : Type} [DecidableEq κ] (le : κ → κ → Bool) (k : Row → κ)
    (rows : List Row) : List κ :=
  sortLe le ((rows.map k).dedup)

/-- The rows of one group, in frame order: `df[key(df) = key]`. -/
def groupRows {κ : Type} [DecidableEq κ] (k : Row → κ) (rows : List Row) (key : κ) :
    List Row :=
  rows.filter (fun r => k r = key)

/-! ### Aggregation policy and reductions -/

/-- A pandas agg verb used by this code base. -/
inductive AggKind
  | sum
  | mean
deriving DecidableEq

/-- pandas Series.sum: NaN entries are skipped; an all-NaN column sums to 0. -/
def sumOpt (vs : List (Option ℚ)) : Option ℚ :=
  some ((vs.filterMap id).sum)

/-- pandas Series.mean: NaN entries are skipped; an all-NaN column is NaN. -/
def meanOpt (vs : List (Option ℚ)) : Option ℚ :=
  let xs := vs.filterMap id
  if xs.isEmpty then none else some (xs.sum / (xs.length : ℚ))

/-- Apply an agg verb to a column of optional values. -/
def aggApply : AggKind → List (Option ℚ) → Option ℚ
  | .sum => sumOpt
  | .mean => meanOpt

/-- get_aggregation_map: SUM_VARS = [PRECIP, EVAP] are summed, the rest are
averaged. -/
def get_aggregation_map (c : String) : AggKind :=
  if c = ("PRECIP") ∨ c = ("EVAP") then .sum else .mean

/-! ### numpy rounding to 2 decimals (round half to even), NaN → None -/

/-- Round a rational to the nearest integer, ties to even (numpy rounding). -/
def roundHalfEven (x : ℚ) : ℤ :=
  let n := ⌊x⌋
  let f := x - (n : ℚ)
  if f < 1/2 then n
  else if 1/2 < f then n + 1
  else if 2 ∣ n then n else n + 1

/-- DataFrame.round(2) on one value. -/
def round2 (x : ℚ) : ℚ := (roundHalfEven (x * 100) : ℚ) / 100

/-- round(2) followed by replace({nan: None}) on an optional value. -/
def roundOpt2 (v : Option ℚ) : Option ℚ := v.map round2

/-- A rational that is exactly representable with 2 decimal places. -/
def Is2dp (q : ℚ) : Prop := ∃ k : ℤ, q = (k : ℚ) / 100

/-! ### Output records -/

/-- Zero-padding to 2 digits, as in the f-string 02d format. -/
def pad2 (n : ℕ) : String := if n < 10 then ("0") ++ toString n else toString n

/-- Zero-padding to 4 digits, as in strftime %Y. -/
def pad4 (n : ℕ) : String :=
  if n < 10 then ("000") ++ toString n
  else if n < 100 then ("00") ++ toString n
  else if n < 1000 then ("0") ++ toString n
  else toString n

/-- One record of an aggregation result: the group key, the optional display
label column (dia_mes or Fecha, when the mode emits one), and one value per
numeric column. -/
structure OutRec (κ : Type) where
  key : κ
  label : Option String
  vals : List (String × Option ℚ)
deriving DecidableEq

/-- An aggregation result document: variables (Python field name) and datos. -/
structure AggResult (κ : Type) where
  vars : List String
  datos : List (OutRec κ)
deriving DecidableEq

/-- The record a groupby().agg() run emits for one key, with per-value
round(2) and NaN→None applied by the caller-side postprocessing. -/
def aggRecord {κ : Type} [DecidableEq κ] (k : Row → κ) (rows : List Row)
    (cols : List String) (aggOf : String → AggKind) (lab : κ → Option String)
    (key : κ) : OutRec κ :=
  ⟨key, lab key,
    cols.map (fun c =>
      (c, roundOpt2 (aggApply (aggOf c) ((groupRows k rows key).map (fun r => getVal r c)))))⟩

/-- groupby(key).agg(aggOf).reset_index() followed by round(2) and
replace({nan: None}): one record per sorted observed key. -/
def aggregateBy {κ : Type} [DecidableEq κ] (le : κ → κ → Bool) (k : Row → κ)
    (rows : List Row) (cols : List String) (aggOf : String → AggKind)
    (lab : κ → Option String) : List (OutRec κ) :=
  (keysOf le k rows).map (aggRecord k rows cols aggOf lab)

/-! ### The six aggregation modes -/

/-- The agg map of calculate_annual_cycle: get_aggregation_map with PRECIP and
EVAP overridden to mean (the FIX comment of the source). -/
def annual_cycle_agg (c : String) : AggKind :=
  if c = ("PRECIP") then .mean
  else if c = ("EVAP") then .mean
  else get_aggregation_map c

/-- calculate_annual_cycle: day-of-year climatology, grouped by (month, day),
labelled dia_mes = DD-MM. -/
def calculate_annual_cycle (st : Station) (s e : Option Date) : AggResult (ℕ × ℕ) :=
  if st.rows.isEmpty then ⟨st.vars, []⟩ else
  let ncols := st.numericCols
  let df := filter_data_by_date st.rows s e
  if df.isEmpty then ⟨ncols, []⟩ else
  ⟨ncols,
    aggregateBy (pairLeB natLeB natLeB) (fun r => (r.date.m, r.date.d)) df ncols
      annual_cycle_agg (fun k => some (pad2 k.2 ++ ("-") ++ pad2 k.1))⟩

/-- calculate_monthly_average: grouped by the month period of the date,
labelled Fecha = YYYY-MM. -/
def calculate_monthly_average (st : Station) (s e : Option Date) : AggResult (ℕ × ℕ) :=
  if st.rows.isEmpty then ⟨st.vars, []⟩ else
  let ncols := st.numericCols
  let df := filter_data_by_date st.rows s e
  if df.isEmpty then ⟨ncols, []⟩ else
  ⟨ncols,
    aggregateBy (pairLeB natLeB natLeB) (fun r => (r.date.y, r.date.m)) df ncols
      get_aggregation_map (fun k => some (pad4 k.1 ++ ("-") ++ pad2 k.2))⟩

/-- calculate_yearly_average: grouped by the year period of the date,
labelled Fecha = YYYY. -/
def calculate_yearly_average (st : Station) (s e : Option Date) : AggResult ℕ :=
  if st.rows.isEmpty then ⟨st.vars, []⟩ else
  let ncols := st.numericCols
  let df := filter_data_by_date st.rows s e
  if df.isEmpty then ⟨ncols, []⟩ else
  ⟨ncols,
    aggregateBy natLeB (fun r => r.date.y) df ncols get_aggregation_map
      (fun k => some (pad4 k))⟩

/-- The month→season map of the source (months 1..12; the map sends December,
January and February to winter, and so on). -/
def seasonOf (m : ℕ) : String :=
  if m = 12 ∨ m = 1 ∨ m = 2 then ("Invierno")
  else if m = 3 ∨ m = 4 ∨ m = 5 then ("Primavera")
  else if m = 6 ∨ m = 7 ∨ m = 8 then ("Verano")
  else ("Otoño")

/-- The position of a season in season_order = [Primavera, Verano, Otoño,
Invierno], the ordered pandas Categorical used for sorting. -/
def seasonRank (se : String) : ℕ :=
  if se = ("Primavera") then 0
  else if se = ("Verano") then 1
  else if se = ("Otoño") then 2
  else 3

/-- The sort key of seasonal_df.sort_values([Year, Season]) with Season an
ordered Categorical: by year, then by canonical season order. -/
def seasonalSortLe (a b : OutRec (ℕ × String)) : Bool :=
  pairLeB natLeB natLeB (a.key.1, seasonRank a.key.2) (b.key.1, seasonRank b.key.2)

/-- calculate_seasonal_average: single pass grouped by (Year, Season) with the
policy agg map, labelled Fecha = Season Year, then sorted by year and by the
canonical season order. -/
def calculate_seasonal_average (st : Station) (s e : Option Date) :
    AggResult (ℕ × String) :=
  if st.rows.isEmpty then ⟨st.vars, []⟩ else
  let ncols := st.numericCols
  let df := filter_data_by_date st.rows s e
  if df.isEmpty then ⟨ncols, []⟩ else
  ⟨ncols,
    sortLe seasonalSortLe
      (aggregateBy (pairLeB natLeB strLeB) (fun r => (r.date.y, seasonOf r.date.m))
        df ncols get_aggregation_map (fun k => some (k.2 ++ (" ") ++ toString k.1)))⟩

/-! ### The two-pass across-years modes -/

/-- The first-pass agg map built by the two-pass modes: sum_cols are the
numeric columns among PRECIP and EVAP, the rest are averaged. -/
def cycle_agg_map (c : String) : AggKind :=
  if c = ("PRECIP") ∨ c = ("EVAP") then .sum else .mean

/-- Read one column out of a first-pass record. -/
def lookupVal (vs : List (String × Option ℚ)) (c : String) : Option ℚ :=
  (vs.lookup c).join

/-- First pass of the across-years modes: groupby(key).agg(aggOf) without
rounding. -/
def pass1 {κ : Type} [DecidableEq κ] (le : κ → κ → Bool) (k : Row → κ)
    (rows : List Row) (cols : List String) (aggOf : String → AggKind) :
    List (κ × List (String × Option ℚ)) :=
  (keysOf le k rows).map (fun key =>
    (key, cols.map (fun c =>
      (c, aggApply (aggOf c) ((groupRows k rows key).map (fun r => getVal r c))))))

/-- Second pass: group the first-pass records by a projection of their key and
average each numeric column across them (pandas mean skips NaN). -/
def pass2 {κ κ₂ : Type} [DecidableEq κ₂] (le₂ : κ₂ → κ₂ → Bool) (proj : κ → κ₂)
    (p1 : List (κ × List (String × Option ℚ))) (cols : List String) :
    List (κ₂ × List (String × Option ℚ)) :=
  (sortLe le₂ ((p1.map (fun x => proj x.1)).dedup)).map (fun k2 =>
    (k2, cols.map (fun c =>
      (c, meanOpt ((p1.filter (fun x => proj x.1 = k2)).map (fun x => lookupVal x.2 c))))))

/-- calculate_monthly_annual_cycle: per-(Year, Month) policy aggregation, then
the mean across years per Month; round(2) on the final frame only; emitted
one record per observed calendar month, keyed Mes, ascending. -/
def calculate_monthly_annual_cycle (st : Station) (s e : Option Date) : AggResult ℕ :=
  if st.rows.isEmpty then ⟨st.vars, []⟩ else
  let ncols := st.numericCols
  let df := filter_data_by_date st.rows s e
  if df.isEmpty then ⟨ncols, []⟩ else
  ⟨ncols,
    (pass2 natLeB Prod.snd
        (pass1 (pairLeB natLeB natLeB) (fun r => (r.date.y, r.date.m)) df ncols cycle_agg_map)
        ncols).map
      (fun x => ⟨x.1, none, x.2.map (fun cv => (cv.1, roundOpt2 cv.2))⟩)⟩

/-- calculate_seasonal_cycle: per-(Year, Season) policy aggregation, then the
mean across years per Season.  The source casts the Season column to an
ordered Categorical but never sorts afterwards, so the emitted order is the
groupby key order: seasons sorted as strings. -/
def calculate_seasonal_cycle (st : Station) (s e : Option Date) : AggResult String :=
  if st.rows.isEmpty then ⟨st.vars, []⟩ else
  let ncols := st.numericCols
  let df := filter_data_by_date st.rows s e
  if df.isEmpty then ⟨ncols, []⟩ else
  ⟨ncols,
    (pass2 strLeB Prod.snd
        (pass1 (pairLeB natLeB strLeB) (fun r => (r.date.y, seasonOf r.date.m)) df ncols cycle_agg_map)
        ncols).map
      (fun x => ⟨x.1, none, x.2.map (fun cv => (cv.1, roundOpt2 cv.2))⟩)⟩

/-! ### Daily percentiles -/

/-- Order on ℚ as a Boolean relation, for sorting samples. -/
def qLeB (a b : ℚ) : Bool := decide (a ≤ b)

/-- pandas Series.quantile(q) with the default linear interpolation between
order statistics; returns 0 on an empty sample (never reached: groups are
built from non-null rows). -/
def quantileLin (q : ℚ) (vs : List ℚ) : ℚ :=
  let sorted := sortLe qLeB vs
  let n := sorted.length
  if n = 0 then 0 else
  let h : ℚ := q * ((n : ℚ) - 1)
  let lo := (⌊h⌋).toNat
  let g := h - (⌊h⌋ : ℚ)
  sorted.getD lo 0 + g * (sorted.getD (lo + 1) 0 - sorted.getD lo 0)

/-- The rows of calculate_daily_percentiles after date filtering and after
dropping rows whose value for the vbl fails numeric coercion. -/
def percCandidateRows (st : Station) (vbl : String) (s e : Option Date) :
    List Row :=
  (filter_data_by_date st.rows s e).filter (fun r => (getVal r vbl).isSome)

/-- The exact (unrounded) day-of-year quantile of a vbl: the linear
interpolation quantile of the non-null coerced values observed on one
(month, day) across the filtered range. -/
def exactDayQuantile (st : Station) (vbl : String) (percentile : ℕ)
    (s e : Option Date) (k : ℕ × ℕ) : ℚ :=
  quantileLin ((percentile : ℚ) / 100)
    ((groupRows (fun r => (r.date.m, r.date.d)) (percCandidateRows st vbl s e) k).filterMap
      (fun r => getVal r vbl))

/-- One record of a daily-percentile result: month, day, the p{percentile}
threshold value, and the dia_mes label. -/
structure PercRec where
  month : ℕ
  day : ℕ
  value : ℚ
  dia_mes : String
deriving DecidableEq

/-- A daily-percentile result document. -/
structure PercResult where
  vars : List String
  datos : List PercRec
deriving DecidableEq

/-- calculate_daily_percentiles: empty document when the vbl is absent or
the (filtered) frame is empty; otherwise one record per observed (month, day)
among non-null coerced rows, carrying the rounded quantile threshold. -/
def calculate_daily_percentiles (st : Station) (vbl : String)
    (percentile : ℕ) (s e : Option Date) : PercResult :=
  if st.rows.isEmpty ∨ vbl ∉ st.vars then ⟨[], []⟩ else
  if (filter_data_by_date st.rows s e).isEmpty then ⟨[], []⟩ else
  ⟨[("p") ++ toString percentile],
    (keysOf (pairLeB natLeB natLeB) (fun r => (r.date.m, r.date.d))
        (percCandidateRows st vbl s e)).map (fun k =>
      ⟨k.1, k.2, round2 (exactDayQuantile st vbl percentile s e k),
        pad2 k.2 ++ ("-") ++ pad2 k.1⟩)⟩

/-! ### Extreme-event frequency -/

/-- One value of the trend dict. -/
inductive TrendVal
  | num (q : ℚ)
  | flag (b : Bool)
  | nums (l : List ℚ)
deriving DecidableEq

/-- An extreme-event frequency result document.  datos holds (year, frequency)
records.  trend is the Python dict: none models the trend key being absent
from the returned document (the early returns), some [] the empty dict. -/
structure FreqResult where
  vars : List String
  datos : List (ℕ × ℚ)
  trend : Option (List (String × TrendVal))
deriving DecidableEq

/-- The day-of-year threshold obtained by merging a raw observation with the
(rounded) daily-percentile records on (month, day). -/
def mergedThreshold (st : Station) (vbl : String) (percentile : ℕ)
    (s e : Option Date) (k : ℕ × ℕ) : Option ℚ :=
  ((calculate_daily_percentiles st vbl percentile s e).datos.find? (fun pr =>
      decide (pr.month = k.1 ∧ pr.day = k.2))).map
    (fun pr => pr.value)

/-- scipy.stats.linregress slope: ordinary least squares of y against x. -/
def olsSlope (pts : List (ℚ × ℚ)) : ℚ :=
  let n : ℚ := (pts.length : ℚ)
  let xbar := (pts.map Prod.fst).sum / n
  let ybar := (pts.map Prod.snd).sum / n
  ((pts.map (fun p => (p.1 - xbar) * (p.2 - ybar))).sum) /
    ((pts.map (fun p => (p.1 - xbar) ^ 2)).sum)

/-- scipy.stats.linregress intercept: ybar - slope * xbar. -/
def olsIntercept (pts : List (ℚ × ℚ)) : ℚ :=
  (pts.map Prod.snd).sum / (pts.length : ℚ) -
    olsSlope pts * ((pts.map Prod.fst).sum / (pts.length : ℚ))

/-- Is a merged observation an extreme event (observation against its merged
rounded threshold, under the given operator)? -/
def isExtremeObs (vbl operator : String) (rt : Row × ℚ) : Bool :=
  if operator = ("greater") then decide ((getVal rt.1 vbl).getD 0 > rt.2)
  else decide ((getVal rt.1 vbl).getD 0 < rt.2)

/-- Step 2-4 of calculate_extreme_event_frequency: the rows of the filtered
frame that survive numeric coercion of the variable, inner-merged (in frame
order) with their (month, day) daily-percentile threshold. -/
def mergedList (st : Station) (vbl : String) (percentile : ℕ) (s e : Option Date) :
    List (Row × ℚ) :=
  (percCandidateRows st vbl s e).filterMap
    (fun r => (mergedThreshold st vbl percentile s e (r.date.m, r.date.d)).map
      (fun t => (r, t)))

/-- Step 6: groupby year of the merged frame (sorted ascending observed
years). -/
def freqYears (merged : List (Row × ℚ)) : List ℕ :=
  sortLe natLeB ((merged.map (fun rt => rt.1.date.y)).dedup)

/-- Step 6: the (year, frequency) records: per observed year, the sum of the
is_extreme booleans, rounded. -/
def freqDatos (vbl operator : String) (merged : List (Row × ℚ)) : List (ℕ × ℚ) :=
  (freqYears merged).map (fun y =>
    (y, round2 (((merged.filter (fun rt => rt.1.date.y = y)).countP
      (isExtremeObs vbl operator) : ℚ))))

/-- Step 7: the trend dict: empty unless more than one yearly record exists,
otherwise slope, p-value, significance flag and fitted line points.  The scipy
p-value is an external real-analytic quantity (a t-distribution tail); it
enters the model as the function parameter pval applied to the regression
points. -/
def trendOf (pval : List (ℚ × ℚ) → ℚ) (datos : List (ℕ × ℚ)) :
    Option (List (String × TrendVal)) :=
  if 1 < datos.length then
    some [(("slope"), .num (olsSlope (datos.map (fun ab => ((ab.1 : ℚ), ab.2))))),
          (("p_value"), .num (pval (datos.map (fun ab => ((ab.1 : ℚ), ab.2))))),
          (("is_significant"),
            .flag (decide (pval (datos.map (fun ab => ((ab.1 : ℚ), ab.2))) < 1/20))),
          (("trend_line_points"),
            .nums ((datos.map (fun ab => ((ab.1 : ℚ), ab.2))).map (fun xy =>
              olsSlope (datos.map (fun ab => ((ab.1 : ℚ), ab.2))) * xy.1 +
                olsIntercept (datos.map (fun ab => ((ab.1 : ℚ), ab.2))))))]
  else some []

/-- Steps 5-7 applied to the merged frame: the classification raises
ValueError for an operator outside greater/less (modelled as Except.error),
otherwise the document always carries the trend key. -/
def freqFromMerged (pval : List (ℚ × ℚ) → ℚ) (vbl operator : String)
    (merged : List (Row × ℚ)) : Except String FreqResult :=
  if operator = ("greater") ∨ operator = ("less") then
    .ok ⟨[("frequency")], freqDatos vbl operator merged,
         trendOf pval (freqDatos vbl operator merged)⟩
  else .error ("El operador debe ser greater o less")

/-- calculate_extreme_event_frequency: the early returns (no thresholds; empty
filtered frame or absent variable) yield documents without the trend key;
otherwise steps 2-7 run on the merged frame.  The operator check happens after
the early returns, as in the source. -/
def calculate_extreme_event_frequency (pval : List (ℚ × ℚ) → ℚ) (st : Station)
    (vbl : String) (percentile : ℕ) (operator : String) (s e : Option Date) :
    Except String FreqResult :=
  if (calculate_daily_percentiles st vbl percentile s e).datos.isEmpty then
    .ok ⟨[], [], none⟩
  else if (filter_data_by_date st.rows s e).isEmpty ∨ vbl ∉ st.vars then
    .ok ⟨[], [], none⟩
  else freqFromMerged pval vbl operator (mergedList st vbl percentile s e)

/-- The /extremos/frecuencia route handler: an operator outside greater/less
is rejected with HTTP 400 InvalidParameter before the computation is invoked. -/
def obtener_frecuencia_eventos_extremos (pval : List (ℚ × ℚ) → ℚ) (st : Station)
    (vbl : String) (percentile : ℕ) (operator : String) (s e : Option Date) :
    Except String FreqResult :=
  if operator ≠ ("greater") ∧ operator ≠ ("less") then .error ("InvalidParameter")
  else calculate_extreme_event_frequency pval st vbl percentile operator s e

/-! ### Concrete stations and templates used by the witnesses -/

/-- A constant p-value stand-in used to instantiate the external scipy
p-value parameter in concrete computations. -/
def pvalZero : List (ℚ × ℚ) → ℚ := fun _ => 0

/-- Two days with PRECIP 1.0 and 3.0 on the same (month, day) of two years. -/
def st1 : Station :=
  ⟨[("PRECIP")], [("PRECIP")],
   [⟨⟨2000, 5, 1⟩, [(("PRECIP"), some 1)]⟩,
    ⟨⟨2001, 5, 1⟩, [(("PRECIP"), some 3)]⟩]⟩

/-- A 2-day month with PRECIP [1.0, 3.0] and TMAX [10.0, 20.0]. -/
def st2 : Station :=
  ⟨[("PRECIP"), ("TMAX")], [("PRECIP"), ("TMAX")],
   [⟨⟨2000, 6, 1⟩, [(("PRECIP"), some 1), (("TMAX"), some 10)]⟩,
    ⟨⟨2000, 6, 2⟩, [(("PRECIP"), some 3), (("TMAX"), some 20)]⟩]⟩

/-- A station with an empty record list (e.g. a backing file whose rows were
all dropped). -/
def stE : Station := ⟨[("W")], [("W")], []⟩

/-- Four observations of V on February 1st across four years; at p33 the
exact interpolated quantile is 0.06732 while the emitted threshold is 0.07. -/
def st10 : Station :=
  ⟨[("V")], [("V")],
   [⟨⟨2000, 2, 1⟩, [(("V"), some 0)]⟩,
    ⟨⟨2001, 2, 1⟩, [(("V"), some (1/10))]⟩,
    ⟨⟨2002, 2, 1⟩, [(("V"), some (1/5))]⟩,
    ⟨⟨2003, 2, 1⟩, [(("V"), some (17/250))]⟩]⟩

/-- A station with one winter observation (January) and one spring observation
(April) of the same year. -/
def st4 : Station :=
  ⟨[("V")], [("V")],
   [⟨⟨2000, 1, 15⟩, [(("V"), some 1)]⟩,
    ⟨⟨2000, 4, 15⟩, [(("V"), some 2)]⟩]⟩

/-- A 3-day June 2000 with TMAX values [2, 3, 5]: the monthly mean 10/3 is
emitted as 3.33. -/
def st6 : Station :=
  ⟨[("TMAX")], [("TMAX")],
   [⟨⟨2000, 6, 1⟩, [(("TMAX"), some 2)]⟩,
    ⟨⟨2000, 6, 2⟩, [(("TMAX"), some 3)]⟩,
    ⟨⟨2000, 6, 3⟩, [(("TMAX"), some 5)]⟩]⟩

/-- Observations giving yearly counts 0, 0, 1 over the non-equidistant years
2000, 2001, 2003, whose OLS slope 5/14 is not a 2-dp number. -/
def stT : Station :=
  ⟨[("V")], [("V")],
   [⟨⟨2000, 2, 1⟩, [(("V"), some 1)]⟩,
    ⟨⟨2001, 3, 1⟩, [(("V"), some 5)]⟩,
    ⟨⟨2003, 2, 1⟩, [(("V"), some 2)]⟩]⟩

/-- A template day for building repeated-year stations: a (month, day) and the
cell values. -/
structure TRow where
  m : ℕ
  d : ℕ
  vals : List (String × Option ℚ)
deriving DecidableEq

/-- Instantiate a template day in a given year. -/
def mkRow (y : ℕ) (t : TRow) : Row := ⟨⟨y, t.m, t.d⟩, t.vals⟩

/-- Read a cell of a template day. -/
def tval (t : TRow) (c : String) : Option ℚ := (t.vals.lookup c).join

/-- The per-month policy aggregate of the template (either pass sees exactly
this value for each year, since the years are identical). -/
def monthAgg (tmpl : List TRow) (m0 : ℕ) (c : String) : Option ℚ :=
  aggApply (get_aggregation_map c)
    ((tmpl.filter (fun t => t.m = m0)).map (fun t => tval t c))

/-- A template of two June days carrying PRECIP [1, 3] and TMAX [10, 20]. -/
def tmpl3 : List TRow :=
  [⟨6, 1, [(("PRECIP"), some 1), (("TMAX"), some 10)]⟩,
   ⟨6, 2, [(("PRECIP"), some 3), (("TMAX"), some 20)]⟩]

/-- A station holding two identical years (2000 and 2001) of tmpl3. -/
def st3 : Station :=
  ⟨[("PRECIP"), ("TMAX")], [("PRECIP"), ("TMAX")],
   ([2000, 2001].flatMap (fun y => tmpl3.map (mkRow y)))⟩

/-! ### Shared lemmas -/

theorem mem_insertLe {α : Type} (le : α → α → Bool) (x a : α) (l : List α) :
    a ∈ insertLe le x l ↔ a = x ∨ a ∈ l := by
  induction l with
  | nil => simp [insertLe]
  | cons y ys ih =>
    unfold insertLe
    split
    · simp
    · simp [ih]
      tauto

theorem mem_sortLe {α : Type} (le : α → α → Bool) (a : α) (l : List α) :
    a ∈ sortLe le l ↔ a ∈ l := by
  induction l with
  | nil => simp [sortLe]
  | cons y ys ih =>
    show a ∈ insertLe le y (sortLe le ys) ↔ _
    rw [mem_insertLe]
    simp [ih]

theorem mem_keysOf {κ : Type} [DecidableEq κ] (le : κ → κ → Bool) (k : Row → κ)
    (rows : List Row) (key : κ) :
    key ∈ keysOf le k rows ↔ ∃ r ∈ rows, k r = key := by
  simp [keysOf, mem_sortLe, List.mem_dedup, List.mem_map, eq_comm]

theorem round2_is2dp (q : ℚ) : Is2dp (round2 q) :=
  ⟨roundHalfEven (q * 100), rfl⟩

theorem annual_cycle_agg_mean (c : String) : annual_cycle_agg c = .mean := by
  unfold annual_cycle_agg get_aggregation_map
  split_ifs with h1 h2 h3 <;> simp_all

theorem aggApply_policy (c : String) :
    aggApply (get_aggregation_map c) =
      if c = ("PRECIP") ∨ c = ("EVAP") then sumOpt else meanOpt := by
  unfold get_aggregation_map
  split <;> rfl

/-- Chronological order on dates is transitive. -/
theorem Date.le_trans {a b c : Date} (h1 : Date.le a b = true)
    (h2 : Date.le b c = true) : Date.le a c = true := by
  simp only [Date.le, decide_eq_true_eq] at *
  omega

/-! ### Concrete stations used by the witnesses -/

/-! ### C1 -/

/-- Claim C1: for every station series and optional date range, every record
of the day-of-year aggregation (the annual cycle) carries, for every numeric
variable — the additive PRECIP and EVAP included — the 2-dp-rounded MEAN of
the values observed in its (month, day) group, never a sum. -/
theorem annual_cycle_always_mean (st : Station) (s e : Option Date)
    (rec : OutRec (ℕ × ℕ)) (h : rec ∈ (calculate_annual_cycle st s e).datos) :
    rec.vals = st.numericCols.map (fun c =>
      (c, roundOpt2 (meanOpt
        ((groupRows (fun r => (r.date.m, r.date.d)) (filter_data_by_date st.rows s e) rec.key).map
          (fun r => getVal r c))))) := by
  unfold calculate_annual_cycle at h
  by_cases h0 : st.rows.isEmpty
  · simp [h0] at h
  · by_cases h1 : (filter_data_by_date st.rows s e).isEmpty
    · simp [h0, h1] at h
    · simp only [h0, h1, Bool.false_eq_true, if_false] at h
      unfold aggregateBy at h
      obtain ⟨k, hk, rfl⟩ := List.mem_map.1 h
      have hfun : annual_cycle_agg = fun _ => AggKind.mean :=
        funext annual_cycle_agg_mean
      simp [aggRecord, hfun, aggApply]

/-- Witness for C1: PRECIP values [1.0, 3.0] on the same (month, day) = (5, 1)
of years 2000 and 2001 aggregate by day-of-year to 2.0 (the mean), not 4.0. -/
theorem annual_cycle_always_mean_witness :
    (⟨(5, 1), some ("01-05"), [(("PRECIP"), some 2)]⟩ : OutRec (ℕ × ℕ))
        ∈ (calculate_annual_cycle st1 none none).datos ∧
    [(("PRECIP"), some (2 : ℚ))] = st1.numericCols.map (fun c =>
      (c, roundOpt2 (meanOpt
        ((groupRows (fun r => (r.date.m, r.date.d)) (filter_data_by_date st1.rows none none)
            (5, 1)).map
          (fun r => getVal r c))))) := by
  have hdat : (calculate_annual_cycle st1 none none).datos
      = [⟨(5, 1), some ("01-05"), [(("PRECIP"), some 2)]⟩] := by
    norm_num [calculate_annual_cycle, st1, filter_data_by_date, aggregateBy, aggRecord,
      keysOf, sortLe, insertLe, groupRows, annual_cycle_agg, get_aggregation_map,
      aggApply, meanOpt, sumOpt, roundOpt2, round2, roundHalfEven, getVal, pad2,
      natLeB, pairLeB, Date.le, List.lookup, List.filterMap_cons, List.filterMap_nil,
      Int.fract, show toString (1:ℕ) = "1" from by decide,
      show toString (5:ℕ) = "5" from by decide]
    decide
  have hmem : (⟨(5, 1), some ("01-05"), [(("PRECIP"), some 2)]⟩ : OutRec (ℕ × ℕ))
      ∈ (calculate_annual_cycle st1 none none).datos := by
    rw [hdat]; exact List.mem_singleton.2 rfl
  exact ⟨hmem, annual_cycle_always_mean st1 none none _ hmem⟩

/-! ### C2 -/

/-- Claim C2: for every station series and optional date range, calendar-month
and calendar-year aggregation reduce each numeric variable by sum for the
additive PRECIP and EVAP and by mean for every other variable, per group,
rounded to 2 dp. -/
theorem monthly_yearly_policy (st : Station) (s e : Option Date) :
    (∀ rec ∈ (calculate_monthly_average st s e).datos,
      rec.vals = st.numericCols.map (fun c =>
        (c, roundOpt2 ((if c = ("PRECIP") ∨ c = ("EVAP") then sumOpt else meanOpt)
          ((groupRows (fun r => (r.date.y, r.date.m)) (filter_data_by_date st.rows s e)
              rec.key).map
            (fun r => getVal r c)))))) ∧
    (∀ rec ∈ (calculate_yearly_average st s e).datos,
      rec.vals = st.numericCols.map (fun c =>
        (c, roundOpt2 ((if c = ("PRECIP") ∨ c = ("EVAP") then sumOpt else meanOpt)
          ((groupRows (fun r => r.date.y) (filter_data_by_date st.rows s e) rec.key).map
            (fun r => getVal r c)))))) := by
  constructor
  · intro rec h
    unfold calculate_monthly_average at h
    by_cases h0 : st.rows.isEmpty
    · simp [h0] at h
    · by_cases h1 : (filter_data_by_date st.rows s e).isEmpty
      · simp [h0, h1] at h
      · simp only [h0, h1, Bool.false_eq_true, if_false] at h
        unfold aggregateBy at h
        obtain ⟨k, hk, rfl⟩ := List.mem_map.1 h
        simp only [aggRecord]
        exact List.map_congr_left (fun c _ => by rw [aggApply_policy])
  · intro rec h
    unfold calculate_yearly_average at h
    by_cases h0 : st.rows.isEmpty
    · simp [h0] at h
    · by_cases h1 : (filter_data_by_date st.rows s e).isEmpty
      · simp [h0, h1] at h
      · simp only [h0, h1, Bool.false_eq_true, if_false] at h
        unfold aggregateBy at h
        obtain ⟨k, hk, rfl⟩ := List.mem_map.1 h
        simp only [aggRecord]
        exact List.map_congr_left (fun c _ => by rw [aggApply_policy])

set_option maxRecDepth 4000 in
/-- Witness for C2: the 2-day June 2000 with PRECIP [1.0, 3.0] and
TMAX [10.0, 20.0] yields by calendar month PRECIP = 4.0 (sum) and
TMAX = 15.0 (mean). -/
theorem monthly_yearly_policy_witness :
    (⟨(2000, 6), some (pad4 2000 ++ ("-") ++ pad2 6),
        [(("PRECIP"), some 4), (("TMAX"), some 15)]⟩ :
        OutRec (ℕ × ℕ)) ∈ (calculate_monthly_average st2 none none).datos ∧
    [(("PRECIP"), some (4 : ℚ)), (("TMAX"), some 15)] = st2.numericCols.map (fun c =>
      (c, roundOpt2 ((if c = ("PRECIP") ∨ c = ("EVAP") then sumOpt else meanOpt)
        ((groupRows (fun r => (r.date.y, r.date.m)) (filter_data_by_date st2.rows none none)
            (2000, 6)).map
          (fun r => getVal r c))))) := by
  have hP : roundOpt2 (sumOpt [some 1, some 3]) = some 4 := by
    norm_num [sumOpt, roundOpt2, round2, roundHalfEven, Int.fract,
      List.filterMap_cons, List.filterMap_nil]
  have hT : roundOpt2 (meanOpt [some 10, some 20]) = some 15 := by
    norm_num [meanOpt, roundOpt2, round2, roundHalfEven, Int.fract,
      List.filterMap_cons, List.filterMap_nil]
  have hdat : (calculate_monthly_average st2 none none).datos
      = [⟨(2000, 6), some (pad4 2000 ++ ("-") ++ pad2 6),
          [(("PRECIP"), some 4), (("TMAX"), some 15)]⟩] := by
    simp [calculate_monthly_average, st2, filter_data_by_date, aggregateBy, aggRecord,
      keysOf, sortLe, insertLe, groupRows, aggApply_policy, getVal, List.lookup,
      natLeB, pairLeB, Date.le, hP, hT]
  have hmem : (⟨(2000, 6), some (pad4 2000 ++ ("-") ++ pad2 6),
      [(("PRECIP"), some 4), (("TMAX"), some 15)]⟩ :
      OutRec (ℕ × ℕ)) ∈ (calculate_monthly_average st2 none none).datos := by
    rw [hdat]; exact List.mem_singleton.2 rfl
  exact ⟨hmem, (monthly_yearly_policy st2 none none).1 _ hmem⟩

/-! ### C7 -/

/-- Claim C7: filtering any non-empty series with a start bound strictly after
the end bound yields an empty series, and each of the six aggregation modes
applied to a series that becomes empty after filtering returns the well-formed
empty document (the numeric variables with an empty record list), with no
error and no NotFound. -/
theorem empty_range_empty_result (st : Station) (sd ed : Date)
    (hlt : Date.le sd ed = false) (hne : st.rows ≠ []) :
    filter_data_by_date st.rows (some sd) (some ed) = [] ∧
    calculate_annual_cycle st (some sd) (some ed) = ⟨st.numericCols, []⟩ ∧
    calculate_monthly_average st (some sd) (some ed) = ⟨st.numericCols, []⟩ ∧
    calculate_yearly_average st (some sd) (some ed) = ⟨st.numericCols, []⟩ ∧
    calculate_monthly_annual_cycle st (some sd) (some ed) = ⟨st.numericCols, []⟩ ∧
    calculate_seasonal_average st (some sd) (some ed) = ⟨st.numericCols, []⟩ ∧
    calculate_seasonal_cycle st (some sd) (some ed) = ⟨st.numericCols, []⟩ := by
  have hfil : filter_data_by_date st.rows (some sd) (some ed) = [] := by
    apply List.filter_eq_nil_iff.2
    intro r hr
    simp only [Bool.and_eq_true, not_and]
    intro hs he
    have := Date.le_trans hs he
    rw [hlt] at this
    exact Bool.false_ne_true this
  have h0 : st.rows.isEmpty = false := by
    cases hrows : st.rows with
    | nil => exact absurd hrows hne
    | cons a l => rfl
  have hfe : (filter_data_by_date st.rows (some sd) (some ed)).isEmpty = true := by
    rw [hfil]; rfl
  refine ⟨hfil, ?_, ?_, ?_, ?_, ?_, ?_⟩ <;>
    simp [calculate_annual_cycle, calculate_monthly_average, calculate_yearly_average,
      calculate_monthly_annual_cycle, calculate_seasonal_average, calculate_seasonal_cycle,
      h0, hfe]

/-- Witness for C7: the two-day station st1 filtered from 2001-01-01 back to
2000-01-01 (start strictly after end) yields the empty series and the six
empty documents. -/
theorem empty_range_empty_result_witness :
    filter_data_by_date st1.rows (some ⟨2001, 1, 1⟩) (some ⟨2000, 1, 1⟩) = [] ∧
    calculate_annual_cycle st1 (some ⟨2001, 1, 1⟩) (some ⟨2000, 1, 1⟩) = ⟨st1.numericCols, []⟩ ∧
    calculate_monthly_average st1 (some ⟨2001, 1, 1⟩) (some ⟨2000, 1, 1⟩) = ⟨st1.numericCols, []⟩ ∧
    calculate_yearly_average st1 (some ⟨2001, 1, 1⟩) (some ⟨2000, 1, 1⟩) = ⟨st1.numericCols, []⟩ ∧
    calculate_monthly_annual_cycle st1 (some ⟨2001, 1, 1⟩) (some ⟨2000, 1, 1⟩)
      = ⟨st1.numericCols, []⟩ ∧
    calculate_seasonal_average st1 (some ⟨2001, 1, 1⟩) (some ⟨2000, 1, 1⟩)
      = ⟨st1.numericCols, []⟩ ∧
    calculate_seasonal_cycle st1 (some ⟨2001, 1, 1⟩) (some ⟨2000, 1, 1⟩)
      = ⟨st1.numericCols, []⟩ :=
  empty_range_empty_result st1 ⟨2001, 1, 1⟩ ⟨2000, 1, 1⟩ (by decide)
    (List.cons_ne_nil _ _)

/-! ### C8 -/

/-- Claim C8: for every series, variable, percentile and date range, the
extreme-frequency route handler rejects an operator outside greater/less with
InvalidParameter, before the computation is invoked. -/
theorem invalid_operator_rejected (operator : String)
    (hop : operator ≠ ("greater") ∧ operator ≠ ("less"))
    (pval : List (ℚ × ℚ) → ℚ) (st : Station) (vbl : String) (percentile : ℕ)
    (s e : Option Date) :
    obtener_frecuencia_eventos_extremos pval st vbl percentile operator s e
      = .error ("InvalidParameter") := by
  unfold obtener_frecuencia_eventos_extremos
  rw [if_pos hop]

/-- Witness for C8: the operator between is rejected with InvalidParameter. -/
theorem invalid_operator_rejected_witness :
    obtener_frecuencia_eventos_extremos pvalZero st1 ("PRECIP") 90 ("between") none none
      = .error ("InvalidParameter") :=
  invalid_operator_rejected ("between") (by constructor <;> decide) pvalZero st1
    ("PRECIP") 90 none none

/-! ### C9 -/

theorem isEmpty_false_of_ne_nil {α : Type} {l : List α} (h : l ≠ []) :
    l.isEmpty = false := by
  cases l with
  | nil => exact absurd rfl h
  | cons a l => rfl

/-- If the daily-percentile document has records, then the filtered frame is
non-empty and the variable is among the station columns. -/
theorem perc_nonempty_facts (st : Station) (vbl : String) (p : ℕ)
    (s e : Option Date)
    (h : (calculate_daily_percentiles st vbl p s e).datos ≠ []) :
    filter_data_by_date st.rows s e ≠ [] ∧ vbl ∈ st.vars := by
  unfold calculate_daily_percentiles at h
  by_cases h0 : st.rows.isEmpty = true ∨ vbl ∉ st.vars
  · rw [if_pos h0] at h
    exact absurd rfl h
  · by_cases h1 : (filter_data_by_date st.rows s e).isEmpty = true
    · rw [if_neg h0, if_pos h1] at h
      exact absurd rfl h
    · push_neg at h0
      refine ⟨?_, h0.2⟩
      intro hnil
      rw [hnil] at h1
      exact h1 rfl

/-- Claim C9: when the daily-percentile step yields no thresholds, extreme
frequency returns the empty document with no trend key at all; any ok result
produced when thresholds exist carries a trend key (possibly the empty dict). -/
theorem thresholds_gate_trend (pval : List (ℚ × ℚ) → ℚ) (st : Station)
    (vbl : String) (p : ℕ) (op : String) (s e : Option Date) :
    ((calculate_daily_percentiles st vbl p s e).datos = [] →
      calculate_extreme_event_frequency pval st vbl p op s e = .ok ⟨[], [], none⟩) ∧
    ((calculate_daily_percentiles st vbl p s e).datos ≠ [] →
      ∀ fr, calculate_extreme_event_frequency pval st vbl p op s e = .ok fr →
        fr.trend.isSome = true) := by
  constructor
  · intro h
    unfold calculate_extreme_event_frequency
    rw [h]
    rfl
  · intro h fr hfr
    obtain ⟨hdf, hvar⟩ := perc_nonempty_facts st vbl p s e h
    unfold calculate_extreme_event_frequency at hfr
    rw [isEmpty_false_of_ne_nil h] at hfr
    rw [if_neg (fun hc => Bool.false_ne_true hc)] at hfr
    rw [if_neg (by simp [isEmpty_false_of_ne_nil hdf, hvar])] at hfr
    unfold freqFromMerged at hfr
    by_cases hop : op = ("greater") ∨ op = ("less")
    · rw [if_pos hop] at hfr
      simp only [Except.ok.injEq] at hfr
      subst hfr
      unfold trendOf
      split <;> rfl
    · rw [if_neg hop] at hfr
      exact absurd hfr (by simp)

/-- Witness for C9: on an empty series the percentile step yields no
thresholds and the frequency result is {variables: [], datos: []} with no
trend key. -/
theorem thresholds_gate_trend_witness :
    calculate_extreme_event_frequency pvalZero stE ("W") 90 ("greater") none none
      = .ok ⟨[], [], none⟩ :=
  (thresholds_gate_trend pvalZero stE ("W") 90 ("greater") none none).1 (by decide)

/-! ### C10 -/

/-- Claim C10: the day-of-year threshold a raw observation is merged against
is the 2-dp rounding of the exact interpolated quantile of its (month, day)
group, and an observation lying strictly between the exact quantile and its
rounding is classified by the rounded value: not an extreme event under
greater (although it exceeds the exact quantile), an extreme event under
less. -/
theorem classification_uses_rounded_threshold (st : Station) (vbl : String)
    (p : ℕ) (s e : Option Date) (k : ℕ × ℕ) (t : ℚ)
    (ht : mergedThreshold st vbl p s e k = some t) :
    t = round2 (exactDayQuantile st vbl p s e k) ∧
    ∀ v : ℚ, exactDayQuantile st vbl p s e k < v →
      v < round2 (exactDayQuantile st vbl p s e k) →
      (¬ t < v ∧ v < t) := by
  have hval : t = round2 (exactDayQuantile st vbl p s e k) := by
    unfold mergedThreshold at ht
    obtain ⟨pr, hfind, hpr⟩ := Option.map_eq_some'.1 ht
    have hmem := List.mem_of_find?_eq_some hfind
    have hpred := List.find?_some hfind
    unfold calculate_daily_percentiles at hmem
    by_cases h0 : st.rows.isEmpty = true ∨ vbl ∉ st.vars
    · rw [if_pos h0] at hmem
      simp at hmem
    · by_cases h1 : (filter_data_by_date st.rows s e).isEmpty = true
      · rw [if_neg h0, if_pos h1] at hmem
        simp at hmem
      · rw [if_neg h0, if_neg h1] at hmem
        simp only [List.mem_map] at hmem
        obtain ⟨k2, hk2, hprk⟩ := hmem
        simp only [decide_eq_true_eq] at hpred
        have hk : k2 = k := by
          have h1' : pr.month = k.1 := hpred.1
          have h2' : pr.day = k.2 := hpred.2
          rw [← hprk] at h1' h2'
          exact Prod.ext h1' h2'
        rw [← hpr, ← hprk, hk]
  refine ⟨hval, ?_⟩
  intro v h1 h2
  rw [hval]
  exact ⟨fun hc => absurd (lt_trans hc h2) (lt_irrefl _), h2⟩

set_option maxRecDepth 4000 in
/-- Witness for C10: at station st10 the merged threshold for (month, day) =
(2, 1) is 0.07, the rounding of the exact quantile 0.06732; the observation
0.068 = 17/250 lies strictly between and is classified by the rounded
threshold (not an event under greater, an event under less). -/
theorem classification_uses_rounded_threshold_witness :
    mergedThreshold st10 ("V") 33 none none (2, 1) = some (7/100) ∧
    (7/100 : ℚ) = round2 (exactDayQuantile st10 ("V") 33 none none (2, 1)) ∧
    exactDayQuantile st10 ("V") 33 none none (2, 1) < 17/250 ∧
    ¬ ((7/100 : ℚ) < 17/250) ∧ (17/250 : ℚ) < 7/100 := by
  have hlist : ((groupRows (fun r => (r.date.m, r.date.d))
        (percCandidateRows st10 ("V") none none) (2, 1)).filterMap
        (fun r => getVal r ("V"))) = [0, 1/10, 1/5, 17/250] := by
    simp [groupRows, percCandidateRows, filter_data_by_date, st10, getVal,
      List.lookup, Date.le]
  have hex : exactDayQuantile st10 ("V") 33 none none (2, 1) = 1683/25000 := by
    rw [exactDayQuantile, hlist]
    norm_num [quantileLin, sortLe, insertLe, qLeB, Int.fract]
  have hro : round2 (exactDayQuantile st10 ("V") 33 none none (2, 1)) = 7/100 := by
    rw [hex]
    norm_num [round2, roundHalfEven, Int.fract]
  have hpd : (calculate_daily_percentiles st10 ("V") 33 none none).datos
      = [⟨2, 1, round2 (exactDayQuantile st10 ("V") 33 none none (2, 1)),
          pad2 1 ++ ("-") ++ pad2 2⟩] := by
    simp [calculate_daily_percentiles, st10, percCandidateRows, filter_data_by_date,
      Date.le, keysOf, sortLe, insertLe, pairLeB, natLeB, getVal, List.lookup]
  have hmt : mergedThreshold st10 ("V") 33 none none (2, 1) = some (7/100) := by
    rw [mergedThreshold, hpd]
    simp [List.find?, hro]
  have h := classification_uses_rounded_threshold st10 ("V") 33 none none (2, 1)
    (7/100) hmt
  have hb := h.2 (17/250) (by rw [hex]; norm_num) (by rw [← h.1]; norm_num)
  exact ⟨hmt, h.1, by rw [hex]; norm_num, hb.1, hb.2⟩

/-! ### C4 -/

/-- Claim C4 (code bug): season-across-years output order.  The source groups
the second pass by the plain Season strings — alphabetical order — and casts
to the ordered Categorical without ever sorting, so st4 (one Invierno day, one
Primavera day) is emitted [Invierno, Primavera], while the canonical display
order of its own season_order comment and of the sibling single-pass function
puts Primavera before Invierno. -/
theorem seasonal_cycle_order_is_alphabetical :
    ((calculate_seasonal_cycle st4 none none).datos.map (fun r => r.key))
      = [("Invierno"), ("Primavera")] ∧
    seasonRank ("Primavera") < seasonRank ("Invierno") := by
  constructor
  · simp [calculate_seasonal_cycle, st4, pass1, pass2, keysOf, sortLe, insertLe,
      groupRows, filter_data_by_date, Date.le, seasonOf, pairLeB, natLeB,
      lookupVal, List.lookup, cycle_agg_map,
      show strLeB ("Invierno") ("Primavera") = true from by decide]
  · decide

/-! ### C5 -/

/-- When the daily-percentile document has records, it is the mapped image of
the sorted (month, day) keys of the coerced candidate rows, which are
non-empty. -/
theorem perc_datos_shape (st : Station) (vbl : String) (p : ℕ) (s e : Option Date)
    (h : (calculate_daily_percentiles st vbl p s e).datos ≠ []) :
    (calculate_daily_percentiles st vbl p s e).datos
      = (keysOf (pairLeB natLeB natLeB) (fun r => (r.date.m, r.date.d))
          (percCandidateRows st vbl s e)).map (fun k =>
          ⟨k.1, k.2, round2 (exactDayQuantile st vbl p s e k),
            pad2 k.2 ++ ("-") ++ pad2 k.1⟩) ∧
    percCandidateRows st vbl s e ≠ [] := by
  unfold calculate_daily_percentiles at h ⊢
  by_cases h0 : st.rows.isEmpty = true ∨ vbl ∉ st.vars
  · rw [if_pos h0] at h
    exact absurd rfl h
  · by_cases h1 : (filter_data_by_date st.rows s e).isEmpty = true
    · rw [if_neg h0, if_pos h1] at h
      exact absurd rfl h
    · rw [if_neg h0, if_neg h1] at h ⊢
      refine ⟨rfl, ?_⟩
      intro hnil
      rw [hnil] at h
      exact h rfl

/-- Past the early returns, at least one yearly frequency record is emitted:
every coerced candidate row finds its own (month, day) threshold in the merge,
so its year appears. -/
theorem freqDatos_ne_nil (st : Station) (vbl : String) (p : ℕ) (s e : Option Date)
    (op : String)
    (h : (calculate_daily_percentiles st vbl p s e).datos ≠ []) :
    freqDatos vbl op (mergedList st vbl p s e) ≠ [] := by
  obtain ⟨hdat, hdf2⟩ := perc_datos_shape st vbl p s e h
  obtain ⟨r0, hr0⟩ := List.exists_mem_of_ne_nil _ hdf2
  have hkey : (r0.date.m, r0.date.d) ∈ keysOf (pairLeB natLeB natLeB)
      (fun r => (r.date.m, r.date.d)) (percCandidateRows st vbl s e) :=
    (mem_keysOf _ _ _ _).2 ⟨r0, hr0, rfl⟩
  have hfind : ((calculate_daily_percentiles st vbl p s e).datos.find? (fun pr =>
      decide (pr.month = r0.date.m ∧ pr.day = r0.date.d))).isSome = true := by
    apply List.find?_isSome.2
    refine ⟨⟨r0.date.m, r0.date.d,
        round2 (exactDayQuantile st vbl p s e (r0.date.m, r0.date.d)),
        pad2 r0.date.d ++ ("-") ++ pad2 r0.date.m⟩, ?_, by simp⟩
    rw [hdat]
    exact List.mem_map.2 ⟨(r0.date.m, r0.date.d), hkey, rfl⟩
  obtain ⟨pr, hpr⟩ := Option.isSome_iff_exists.1 hfind
  have hmt : mergedThreshold st vbl p s e (r0.date.m, r0.date.d) = some pr.value := by
    unfold mergedThreshold
    rw [hpr]
    rfl
  have hmm : (r0, pr.value) ∈ mergedList st vbl p s e := by
    unfold mergedList
    exact List.mem_filterMap.2 ⟨r0, hr0, by rw [hmt]; rfl⟩
  have hy : r0.date.y ∈ freqYears (mergedList st vbl p s e) := by
    unfold freqYears
    rw [mem_sortLe]
    exact List.mem_dedup.2 (List.mem_map.2 ⟨(r0, pr.value), hmm, rfl⟩)
  intro hnil
  unfold freqDatos at hnil
  rw [List.map_eq_nil_iff] at hnil
  rw [hnil] at hy
  exact absurd hy (List.not_mem_nil _)

/-- Claim C5 (amended): for a valid operator, whenever extremeFrequency
produces at least two yearly frequency points the trend dict carries exactly
slope (the OLS slope of count against year), p-value, the significance flag
equal to p-value < 0.05, and the fitted line evaluated at each observed year —
but no intercept entry; with exactly one yearly point the trend dict is empty;
zero yearly points occur only on the early-return paths, where the trend key
is absent; no error is raised for a valid operator. -/
theorem trend_fields_characterization (pval : List (ℚ × ℚ) → ℚ) (st : Station)
    (vbl : String) (p : ℕ) (op : String) (s e : Option Date)
    (hop : op = ("greater") ∨ op = ("less")) (fr : FreqResult)
    (hfr : calculate_extreme_event_frequency pval st vbl p op s e = .ok fr) :
    (2 ≤ fr.datos.length →
      fr.trend = some
        [(("slope"), .num (olsSlope (fr.datos.map (fun ab => ((ab.1 : ℚ), ab.2))))),
         (("p_value"), .num (pval (fr.datos.map (fun ab => ((ab.1 : ℚ), ab.2))))),
         (("is_significant"),
           .flag (decide (pval (fr.datos.map (fun ab => ((ab.1 : ℚ), ab.2))) < 1/20))),
         (("trend_line_points"),
           .nums ((fr.datos.map (fun ab => ((ab.1 : ℚ), ab.2))).map (fun xy =>
             olsSlope (fr.datos.map (fun ab => ((ab.1 : ℚ), ab.2))) * xy.1 +
               olsIntercept (fr.datos.map (fun ab => ((ab.1 : ℚ), ab.2))))))]) ∧
    (fr.datos.length = 1 → fr.trend = some []) ∧
    (fr.datos = [] → fr.trend = none) := by
  unfold calculate_extreme_event_frequency at hfr
  by_cases hpd : (calculate_daily_percentiles st vbl p s e).datos.isEmpty = true
  · rw [if_pos hpd] at hfr
    simp only [Except.ok.injEq] at hfr
    subst hfr
    exact ⟨fun h => absurd h (by simp), fun h => absurd h (by simp), fun _ => rfl⟩
  · by_cases hg2 : (filter_data_by_date st.rows s e).isEmpty = true ∨ vbl ∉ st.vars
    · rw [if_neg hpd, if_pos hg2] at hfr
      simp only [Except.ok.injEq] at hfr
      subst hfr
      exact ⟨fun h => absurd h (by simp), fun h => absurd h (by simp), fun _ => rfl⟩
    · rw [if_neg hpd, if_neg hg2] at hfr
      unfold freqFromMerged at hfr
      rw [if_pos hop] at hfr
      simp only [Except.ok.injEq] at hfr
      subst hfr
      have hne : freqDatos vbl op (mergedList st vbl p s e) ≠ [] :=
        freqDatos_ne_nil st vbl p s e op (fun hnil => hpd (by rw [hnil]; rfl))
      refine ⟨?_, ?_, ?_⟩
      · intro h2
        have h2' : 2 ≤ (freqDatos vbl op (mergedList st vbl p s e)).length := h2
        show trendOf pval (freqDatos vbl op (mergedList st vbl p s e)) = _
        unfold trendOf
        rw [if_pos (by omega)]
      · intro h1
        have h1' : (freqDatos vbl op (mergedList st vbl p s e)).length = 1 := h1
        show trendOf pval (freqDatos vbl op (mergedList st vbl p s e)) = some []
        unfold trendOf
        rw [if_neg (by omega)]
      · intro h0
        exact absurd h0 hne

/-- The full extreme-frequency evaluation for st1, PRECIP, percentile 0,
operator greater: both days match the (5, 1) threshold 1.0 (the p0 quantile of
[1, 3]); 1.0 > 1.0 fails and 3.0 > 1.0 holds, so the yearly counts are
(2000, 0) and (2001, 1). -/
theorem st1_freq_eval :
    calculate_extreme_event_frequency pvalZero st1 ("PRECIP") 0 ("greater") none none
      = .ok ⟨[("frequency")], [(2000, 0), (2001, 1)],
             trendOf pvalZero [(2000, 0), (2001, 1)]⟩ := by
  have hlist : ((groupRows (fun r => (r.date.m, r.date.d))
        (percCandidateRows st1 ("PRECIP") none none) (5, 1)).filterMap
        (fun r => getVal r ("PRECIP"))) = [1, 3] := by
    simp [groupRows, percCandidateRows, filter_data_by_date, st1, getVal,
      List.lookup, Date.le]
  have hex : exactDayQuantile st1 ("PRECIP") 0 none none (5, 1) = 1 := by
    rw [exactDayQuantile, hlist]
    norm_num [quantileLin, sortLe, insertLe, qLeB, Int.fract]
  have hro : round2 (exactDayQuantile st1 ("PRECIP") 0 none none (5, 1)) = 1 := by
    rw [hex]
    norm_num [round2, roundHalfEven, Int.fract]
  have hpd : (calculate_daily_percentiles st1 ("PRECIP") 0 none none).datos
      = [⟨5, 1, round2 (exactDayQuantile st1 ("PRECIP") 0 none none (5, 1)),
          pad2 1 ++ ("-") ++ pad2 5⟩] := by
    simp [calculate_daily_percentiles, st1, percCandidateRows, filter_data_by_date,
      Date.le, keysOf, sortLe, insertLe, pairLeB, natLeB, getVal, List.lookup]
  have hml : mergedList st1 ("PRECIP") 0 none none
      = [(⟨⟨2000, 5, 1⟩, [(("PRECIP"), some 1)]⟩,
            round2 (exactDayQuantile st1 ("PRECIP") 0 none none (5, 1))),
         (⟨⟨2001, 5, 1⟩, [(("PRECIP"), some 3)]⟩,
            round2 (exactDayQuantile st1 ("PRECIP") 0 none none (5, 1)))] := by
    simp [mergedList, percCandidateRows, filter_data_by_date, st1, Date.le, getVal,
      List.lookup, mergedThreshold, hpd, List.find?]
  have hr00 : round2 (0 : ℚ) = 0 := by
    norm_num [round2, roundHalfEven, Int.fract]
  have hr11 : round2 (1 : ℚ) = 1 := by
    norm_num [round2, roundHalfEven, Int.fract]
  have hfd : freqDatos ("PRECIP") ("greater") (mergedList st1 ("PRECIP") 0 none none)
      = [(2000, 0), (2001, 1)] := by
    rw [hml, hro]
    norm_num [freqDatos, freqYears, sortLe, insertLe, natLeB, isExtremeObs, getVal,
      List.lookup, List.countP_cons, List.countP_nil, hr00, hr11]
  unfold calculate_extreme_event_frequency
  rw [if_neg (by rw [hpd]; simp)]
  rw [if_neg (by simp [filter_data_by_date, st1, Date.le])]
  unfold freqFromMerged
  rw [if_pos (Or.inl rfl), hfd]

/-- Witness for C5 (amended): at st1 with two yearly points the trend dict is
exactly the slope, p-value, significance and fitted-line entries computed from
the emitted records. -/
theorem trend_fields_characterization_witness :
    trendOf pvalZero [((2000 : ℕ), (0 : ℚ)), (2001, 1)] = some
      [(("slope"), .num (olsSlope (([((2000 : ℕ), (0 : ℚ)), (2001, 1)]).map
          (fun ab => ((ab.1 : ℚ), ab.2))))),
       (("p_value"), .num (pvalZero (([((2000 : ℕ), (0 : ℚ)), (2001, 1)]).map
          (fun ab => ((ab.1 : ℚ), ab.2))))),
       (("is_significant"),
         .flag (decide (pvalZero (([((2000 : ℕ), (0 : ℚ)), (2001, 1)]).map
          (fun ab => ((ab.1 : ℚ), ab.2))) < 1/20))),
       (("trend_line_points"),
         .nums ((([((2000 : ℕ), (0 : ℚ)), (2001, 1)]).map
            (fun ab => ((ab.1 : ℚ), ab.2))).map (fun xy =>
           olsSlope (([((2000 : ℕ), (0 : ℚ)), (2001, 1)]).map
              (fun ab => ((ab.1 : ℚ), ab.2))) * xy.1 +
             olsIntercept (([((2000 : ℕ), (0 : ℚ)), (2001, 1)]).map
              (fun ab => ((ab.1 : ℚ), ab.2))))))] := by
  have h := trend_fields_characterization pvalZero st1 ("PRECIP") 0 ("greater")
    none none (Or.inl rfl) _ st1_freq_eval
  exact h.1 (by norm_num)

/-- Counterexample for C5 as stated: with two yearly points present, the
produced trend dict has exactly the keys slope, p_value, is_significant and
trend_line_points — intercept is not among them, although the claim and the
spec TrendResult say it is. -/
theorem trend_object_lacks_intercept :
    ((calculate_extreme_event_frequency pvalZero st1 ("PRECIP") 0 ("greater")
          none none).toOption.bind
        (fun fr => fr.trend)).map (fun t => t.map Prod.fst)
      = some [("slope"), ("p_value"), ("is_significant"), ("trend_line_points")] ∧
    ("intercept") ∉ [("slope"), ("p_value"), ("is_significant"), ("trend_line_points")] ∧
    (calculate_extreme_event_frequency pvalZero st1 ("PRECIP") 0 ("greater")
        none none).toOption.map (fun fr => fr.datos.length) = some 2 := by
  refine ⟨?_, by decide, ?_⟩
  · rw [st1_freq_eval]
    simp [trendOf, Except.toOption]
  · rw [st1_freq_eval]
    simp [Except.toOption]

/-! ### C6 -/

/-- Every cell of an aggRecord is either null or a rounded (2-dp) value. -/
theorem aggRecord_vals_2dp {κ : Type} [DecidableEq κ] (k : Row → κ)
    (rows : List Row) (cols : List String) (aggOf : String → AggKind)
    (lab : κ → Option String) (key : κ) (cv : String × Option ℚ)
    (hm : cv ∈ (aggRecord k rows cols aggOf lab key).vals) (x : ℚ)
    (hx : cv.2 = some x) : Is2dp x := by
  simp only [aggRecord, List.mem_map] at hm
  obtain ⟨c, _, rfl⟩ := hm
  simp only [roundOpt2] at hx
  obtain ⟨q, _, hq⟩ := Option.map_eq_some'.1 hx
  rw [← hq]
  exact round2_is2dp q

/-- Claim C6 (amended): every numeric value in the six aggregation documents,
in the percentile thresholds, and in the yearly frequency records is exactly a
2-decimal-place number (nulls excepted); the trend fields are not covered (see
the counterexample: they are emitted unrounded). -/
theorem outputs_rounded_2dp (st : Station) (s e : Option Date) (vbl : String)
    (p : ℕ) (op : String) (pval : List (ℚ × ℚ) → ℚ) :
    (∀ rec ∈ (calculate_annual_cycle st s e).datos, ∀ cv ∈ rec.vals,
      ∀ x : ℚ, cv.2 = some x → Is2dp x) ∧
    (∀ rec ∈ (calculate_monthly_average st s e).datos, ∀ cv ∈ rec.vals,
      ∀ x : ℚ, cv.2 = some x → Is2dp x) ∧
    (∀ rec ∈ (calculate_yearly_average st s e).datos, ∀ cv ∈ rec.vals,
      ∀ x : ℚ, cv.2 = some x → Is2dp x) ∧
    (∀ rec ∈ (calculate_monthly_annual_cycle st s e).datos, ∀ cv ∈ rec.vals,
      ∀ x : ℚ, cv.2 = some x → Is2dp x) ∧
    (∀ rec ∈ (calculate_seasonal_average st s e).datos, ∀ cv ∈ rec.vals,
      ∀ x : ℚ, cv.2 = some x → Is2dp x) ∧
    (∀ rec ∈ (calculate_seasonal_cycle st s e).datos, ∀ cv ∈ rec.vals,
      ∀ x : ℚ, cv.2 = some x → Is2dp x) ∧
    (∀ pr ∈ (calculate_daily_percentiles st vbl p s e).datos, Is2dp pr.value) ∧
    (∀ fr, calculate_extreme_event_frequency pval st vbl p op s e = .ok fr →
      ∀ yf ∈ fr.datos, Is2dp yf.2) := by
  refine ⟨?_, ?_, ?_, ?_, ?_, ?_, ?_, ?_⟩
  · intro rec hrec cv hcv x hx
    unfold calculate_annual_cycle at hrec
    by_cases h0 : st.rows.isEmpty
    · simp [h0] at hrec
    · by_cases h1 : (filter_data_by_date st.rows s e).isEmpty
      · simp [h0, h1] at hrec
      · simp only [h0, h1, Bool.false_eq_true, if_false] at hrec
        unfold aggregateBy at hrec
        obtain ⟨k, hk, rfl⟩ := List.mem_map.1 hrec
        exact aggRecord_vals_2dp _ _ _ _ _ _ cv hcv x hx
  · intro rec hrec cv hcv x hx
    unfold calculate_monthly_average at hrec
    by_cases h0 : st.rows.isEmpty
    · simp [h0] at hrec
    · by_cases h1 : (filter_data_by_date st.rows s e).isEmpty
      · simp [h0, h1] at hrec
      · simp only [h0, h1, Bool.false_eq_true, if_false] at hrec
        unfold aggregateBy at hrec
        obtain ⟨k, hk, rfl⟩ := List.mem_map.1 hrec
        exact aggRecord_vals_2dp _ _ _ _ _ _ cv hcv x hx
  · intro rec hrec cv hcv x hx
    unfold calculate_yearly_average at hrec
    by_cases h0 : st.rows.isEmpty
    · simp [h0] at hrec
    · by_cases h1 : (filter_data_by_date st.rows s e).isEmpty
      · simp [h0, h1] at hrec
      · simp only [h0, h1, Bool.false_eq_true, if_false] at hrec
        unfold aggregateBy at hrec
        obtain ⟨k, hk, rfl⟩ := List.mem_map.1 hrec
        exact aggRecord_vals_2dp _ _ _ _ _ _ cv hcv x hx
  · intro rec hrec cv hcv x hx
    unfold calculate_monthly_annual_cycle at hrec
    by_cases h0 : st.rows.isEmpty
    · simp [h0] at hrec
    · by_cases h1 : (filter_data_by_date st.rows s e).isEmpty
      · simp [h0, h1] at hrec
      · simp only [h0, h1, Bool.false_eq_true, if_false] at hrec
        obtain ⟨x2, hx2, rfl⟩ := List.mem_map.1 hrec
        obtain ⟨cv0, _, rfl⟩ := List.mem_map.1 hcv
        simp only [roundOpt2] at hx
        obtain ⟨q, _, hq⟩ := Option.map_eq_some'.1 hx
        rw [← hq]
        exact round2_is2dp q
  · intro rec hrec cv hcv x hx
    unfold calculate_seasonal_average at hrec
    by_cases h0 : st.rows.isEmpty
    · simp [h0] at hrec
    · by_cases h1 : (filter_data_by_date st.rows s e).isEmpty
      · simp [h0, h1] at hrec
      · simp only [h0, h1, Bool.false_eq_true, if_false] at hrec
        rw [mem_sortLe] at hrec
        unfold aggregateBy at hrec
        obtain ⟨k, hk, rfl⟩ := List.mem_map.1 hrec
        exact aggRecord_vals_2dp _ _ _ _ _ _ cv hcv x hx
  · intro rec hrec cv hcv x hx
    unfold calculate_seasonal_cycle at hrec
    by_cases h0 : st.rows.isEmpty
    · simp [h0] at hrec
    · by_cases h1 : (filter_data_by_date st.rows s e).isEmpty
      · simp [h0, h1] at hrec
      · simp only [h0, h1, Bool.false_eq_true, if_false] at hrec
        obtain ⟨x2, hx2, rfl⟩ := List.mem_map.1 hrec
        obtain ⟨cv0, _, rfl⟩ := List.mem_map.1 hcv
        simp only [roundOpt2] at hx
        obtain ⟨q, _, hq⟩ := Option.map_eq_some'.1 hx
        rw [← hq]
        exact round2_is2dp q
  · intro pr hpr
    unfold calculate_daily_percentiles at hpr
    by_cases h0 : st.rows.isEmpty = true ∨ vbl ∉ st.vars
    · rw [if_pos h0] at hpr
      exact absurd hpr (List.not_mem_nil _)
    · by_cases h1 : (filter_data_by_date st.rows s e).isEmpty = true
      · rw [if_neg h0, if_pos h1] at hpr
        exact absurd hpr (List.not_mem_nil _)
      · rw [if_neg h0, if_neg h1] at hpr
        obtain ⟨k, hk, rfl⟩ := List.mem_map.1 hpr
        exact round2_is2dp _
  · intro fr hfr yf hyf
    unfold calculate_extreme_event_frequency at hfr
    by_cases hpd : (calculate_daily_percentiles st vbl p s e).datos.isEmpty = true
    · rw [if_pos hpd] at hfr
      simp only [Except.ok.injEq] at hfr
      subst hfr
      exact absurd hyf (List.not_mem_nil _)
    · by_cases hg2 : (filter_data_by_date st.rows s e).isEmpty = true ∨ vbl ∉ st.vars
      · rw [if_neg hpd, if_pos hg2] at hfr
        simp only [Except.ok.injEq] at hfr
        subst hfr
        exact absurd hyf (List.not_mem_nil _)
      · rw [if_neg hpd, if_neg hg2] at hfr
        unfold freqFromMerged at hfr
        by_cases hop : op = ("greater") ∨ op = ("less")
        · rw [if_pos hop] at hfr
          simp only [Except.ok.injEq] at hfr
          subst hfr
          have hyf' : yf ∈ freqDatos vbl op (mergedList st vbl p s e) := hyf
          unfold freqDatos at hyf'
          obtain ⟨y, hy, rfl⟩ := List.mem_map.1 hyf'
          exact round2_is2dp _
        · rw [if_neg hop] at hfr
          exact absurd hfr (by simp)

set_option maxRecDepth 4000 in
/-- Witness for C6 (amended): the monthly mean 10/3 of st6 is emitted as the
2-dp value 3.33. -/
theorem outputs_rounded_2dp_witness :
    (calculate_monthly_average st6 none none).datos
      = [⟨(2000, 6), some (pad4 2000 ++ ("-") ++ pad2 6), [(("TMAX"), some (333/100))]⟩] ∧
    Is2dp (333/100) := by
  have hv : roundOpt2 (meanOpt [some 2, some 3, some 5]) = some (333/100) := by
    norm_num [meanOpt, roundOpt2, round2, roundHalfEven, Int.fract,
      List.filterMap_cons, List.filterMap_nil]
  have hdat : (calculate_monthly_average st6 none none).datos
      = [⟨(2000, 6), some (pad4 2000 ++ ("-") ++ pad2 6), [(("TMAX"), some (333/100))]⟩] := by
    simp [calculate_monthly_average, st6, filter_data_by_date, aggregateBy, aggRecord,
      keysOf, sortLe, insertLe, groupRows, aggApply_policy, getVal, List.lookup,
      natLeB, pairLeB, Date.le, hv]
  refine ⟨hdat, ?_⟩
  exact (outputs_rounded_2dp st6 none none ("TMAX") 0 ("greater") pvalZero).2.1
    ⟨(2000, 6), some (pad4 2000 ++ ("-") ++ pad2 6), [(("TMAX"), some (333/100))]⟩
    (by rw [hdat]; exact List.mem_singleton.2 rfl)
    (("TMAX"), some (333/100)) (List.mem_singleton.2 rfl) (333/100) rfl

set_option maxRecDepth 4000 in
/-- The extreme-frequency evaluation for stT, V, percentile 0, greater: the
thresholds are 1.0 for (2, 1) and 5.0 for (3, 1); only the 2003 observation
exceeds its threshold, giving counts (2000, 0), (2001, 0), (2003, 1). -/
theorem stT_freq_eval :
    calculate_extreme_event_frequency pvalZero stT ("V") 0 ("greater") none none
      = .ok ⟨[("frequency")], [(2000, 0), (2001, 0), (2003, 1)],
             trendOf pvalZero [(2000, 0), (2001, 0), (2003, 1)]⟩ := by
  have hl21 : ((groupRows (fun r => (r.date.m, r.date.d))
        (percCandidateRows stT ("V") none none) (2, 1)).filterMap
        (fun r => getVal r ("V"))) = [1, 2] := by
    simp [groupRows, percCandidateRows, filter_data_by_date, stT, getVal,
      List.lookup, Date.le]
  have hl31 : ((groupRows (fun r => (r.date.m, r.date.d))
        (percCandidateRows stT ("V") none none) (3, 1)).filterMap
        (fun r => getVal r ("V"))) = [5] := by
    simp [groupRows, percCandidateRows, filter_data_by_date, stT, getVal,
      List.lookup, Date.le]
  have hex21 : exactDayQuantile stT ("V") 0 none none (2, 1) = 1 := by
    rw [exactDayQuantile, hl21]
    norm_num [quantileLin, sortLe, insertLe, qLeB, Int.fract]
  have hex31 : exactDayQuantile stT ("V") 0 none none (3, 1) = 5 := by
    rw [exactDayQuantile, hl31]
    norm_num [quantileLin, sortLe, insertLe, qLeB, Int.fract]
  have hro21 : round2 (exactDayQuantile stT ("V") 0 none none (2, 1)) = 1 := by
    rw [hex21]
    norm_num [round2, roundHalfEven, Int.fract]
  have hro31 : round2 (exactDayQuantile stT ("V") 0 none none (3, 1)) = 5 := by
    rw [hex31]
    norm_num [round2, roundHalfEven, Int.fract]
  have hpd : (calculate_daily_percentiles stT ("V") 0 none none).datos
      = [⟨2, 1, round2 (exactDayQuantile stT ("V") 0 none none (2, 1)),
          pad2 1 ++ ("-") ++ pad2 2⟩,
         ⟨3, 1, round2 (exactDayQuantile stT ("V") 0 none none (3, 1)),
          pad2 1 ++ ("-") ++ pad2 3⟩] := by
    simp [calculate_daily_percentiles, stT, percCandidateRows, filter_data_by_date,
      Date.le, keysOf, sortLe, insertLe, pairLeB, natLeB, getVal, List.lookup]
  have hml : mergedList stT ("V") 0 none none
      = [(⟨⟨2000, 2, 1⟩, [(("V"), some 1)]⟩,
            round2 (exactDayQuantile stT ("V") 0 none none (2, 1))),
         (⟨⟨2001, 3, 1⟩, [(("V"), some 5)]⟩,
            round2 (exactDayQuantile stT ("V") 0 none none (3, 1))),
         (⟨⟨2003, 2, 1⟩, [(("V"), some 2)]⟩,
            round2 (exactDayQuantile stT ("V") 0 none none (2, 1)))] := by
    simp [mergedList, percCandidateRows, filter_data_by_date, stT, Date.le, getVal,
      List.lookup, mergedThreshold, hpd, List.find?]
  have hr00 : round2 (0 : ℚ) = 0 := by
    norm_num [round2, roundHalfEven, Int.fract]
  have hr11 : round2 (1 : ℚ) = 1 := by
    norm_num [round2, roundHalfEven, Int.fract]
  have hfd : freqDatos ("V") ("greater") (mergedList stT ("V") 0 none none)
      = [(2000, 0), (2001, 0), (2003, 1)] := by
    rw [hml, hro21, hro31]
    norm_num [freqDatos, freqYears, sortLe, insertLe, natLeB, isExtremeObs, getVal,
      List.lookup, List.countP_cons, List.countP_nil, hr00, hr11]
  unfold calculate_extreme_event_frequency
  rw [if_neg (by rw [hpd]; simp)]
  rw [if_neg (by simp [filter_data_by_date, stT, Date.le])]
  unfold freqFromMerged
  rw [if_pos (Or.inl rfl), hfd]

/-- Counterexample for C6 as stated: the emitted trend slope at stT is exactly
5/14 = 0.3571..., which is not a 2-decimal-place number — the trend fields are
emitted unrounded, against the claim that every numeric value in every result
document is rounded to 2 decimal places. -/
theorem trend_fields_not_rounded :
    ((calculate_extreme_event_frequency pvalZero stT ("V") 0 ("greater")
          none none).toOption.bind
        (fun fr => fr.trend)).bind (fun t => t.lookup ("slope"))
      = some (.num (5/14)) ∧ ¬ Is2dp (5/14) := by
  constructor
  · have hsl : olsSlope [((2000 : ℚ), 0), (2001, 0), (2003, 1)] = 5/14 := by
      norm_num [olsSlope]
    rw [stT_freq_eval]
    simp [Except.toOption, trendOf, List.lookup, hsl]
  · rintro ⟨k, hk⟩
    have h : (14 : ℚ) * k = 500 := by
      field_simp at hk
      linarith
    have h2 : (14 : ℤ) * k = 500 := by exact_mod_cast h
    omega

/-! ### C3 -/

/-- Filtering one year block of a repeated-year series for a (year, month) key
keeps the whole month of that year, or nothing. -/
theorem block_filter (tmpl : List TRow) (yq y0 m0 : ℕ) :
    (tmpl.map (mkRow yq)).filter (fun r => decide ((r.date.y, r.date.m) = (y0, m0)))
      = if yq = y0 then (tmpl.filter (fun t => t.m = m0)).map (mkRow yq) else [] := by
  rw [List.filter_map]
  by_cases h : yq = y0
  · rw [if_pos h]
    subst h
    congr 1
    apply List.filter_congr
    intro t _
    simp [mkRow, Function.comp, Prod.ext_iff]
  · rw [if_neg h]
    have hnil : tmpl.filter
        ((fun r => decide ((r.date.y, r.date.m) = (y0, m0))) ∘ mkRow yq) = [] := by
      apply List.filter_eq_nil_iff.2
      intro t _
      simp [mkRow, Function.comp, Prod.ext_iff, h]
    rw [hnil, List.map_nil]

/-- Years not mentioned contribute nothing to a (year, month) group. -/
theorem bind_filter_nil (ys : List ℕ) (tmpl : List TRow) (y0 m0 : ℕ)
    (hy : y0 ∉ ys) :
    (ys.flatMap (fun y => tmpl.map (mkRow y))).filter
        (fun r => decide ((r.date.y, r.date.m) = (y0, m0))) = [] := by
  induction ys with
  | nil => rfl
  | cons y ys ih =>
    rw [List.flatMap_cons, List.filter_append, block_filter,
      if_neg (fun hc => hy (List.mem_cons.2 (Or.inl hc.symm))), List.nil_append]
    exact ih (fun hc => hy (List.mem_cons_of_mem _ hc))

/-- The (y0, m0) group of a repeated-year series is the month-m0 part of the
template, instantiated at y0. -/
theorem bind_group (years : List ℕ) (tmpl : List TRow) (y0 m0 : ℕ)
    (hnd : years.Nodup) (hy : y0 ∈ years) :
    groupRows (fun r => (r.date.y, r.date.m))
        (years.flatMap (fun y => tmpl.map (mkRow y))) (y0, m0)
      = (tmpl.filter (fun t => t.m = m0)).map (mkRow y0) := by
  unfold groupRows
  induction years with
  | nil => exact absurd hy (List.not_mem_nil _)
  | cons y ys ih =>
    rw [List.flatMap_cons, List.filter_append, block_filter]
    rcases List.mem_cons.1 hy with h | h
    · subst h
      rw [if_pos rfl, bind_filter_nil ys tmpl y0 m0 (List.nodup_cons.1 hnd).1,
        List.append_nil]
    · rw [if_neg (fun hc => (List.nodup_cons.1 hnd).1 (by rw [hc]; exact h)),
        List.nil_append]
      exact ih (List.nodup_cons.1 hnd).2 h

/-- The (year, month) groupby keys of a repeated-year series. -/
theorem identRows_keys (years : List ℕ) (tmpl : List TRow) (yq mq : ℕ) :
    (yq, mq) ∈ keysOf (pairLeB natLeB natLeB) (fun r => (r.date.y, r.date.m))
        (years.flatMap (fun y => tmpl.map (mkRow y)))
      ↔ yq ∈ years ∧ ∃ t ∈ tmpl, t.m = mq := by
  rw [mem_keysOf]
  constructor
  · rintro ⟨r, hr, hkey⟩
    obtain ⟨y, hyy, hrm⟩ := List.mem_flatMap.1 hr
    obtain ⟨t, htt, rfl⟩ := List.mem_map.1 hrm
    simp only [mkRow, Prod.mk.injEq] at hkey
    exact ⟨hkey.1 ▸ hyy, t, htt, hkey.2⟩
  · rintro ⟨hyy, t, htt, htm⟩
    exact ⟨mkRow yq t, List.mem_flatMap.2 ⟨yq, hyy, List.mem_map.2 ⟨t, htt, rfl⟩⟩,
      by simp [mkRow, htm]⟩

/-- find? by key over a keyed map hits the requested key. -/
theorem find?_map_key {κ β : Type} [BEq κ] [LawfulBEq κ] (K : List κ) (f : κ → β)
    (keyf : β → κ) (hk : ∀ k, keyf (f k) = k) (m : κ) (hm : m ∈ K) :
    (K.map f).find? (fun b => keyf b == m) = some (f m) := by
  induction K with
  | nil => exact absurd hm (List.not_mem_nil _)
  | cons k ks ih =>
    rw [List.map_cons]
    by_cases h : k = m
    · subst h
      rw [List.find?_cons_of_pos _ (by simp [hk])]
    · rw [List.find?_cons_of_neg _ (by simp [hk, h])]
      refine ih ?_
      rcases List.mem_cons.1 hm with h2 | h2
      · exact absurd h2.symm h
      · exact h2

/-- Looking a column up in a record built over the column list. -/
theorem lookup_map_self {β : Type} (cols : List String) (g : String → β)
    (c : String) (hc : c ∈ cols) :
    (cols.map (fun c2 => (c2, g c2))).lookup c = some (g c) := by
  induction cols with
  | nil => exact absurd hc (List.not_mem_nil _)
  | cons c2 cs ih =>
    rw [List.map_cons]
    by_cases h : c = c2
    · subst h
      simp [List.lookup]
    · have hbeq : (c == c2) = false := beq_eq_false_iff_ne.2 h
      have hrec : (((c2, g c2)) :: cs.map (fun c3 => (c3, g c3))).lookup c
          = (cs.map (fun c3 => (c3, g c3))).lookup c := by
        simp [List.lookup, hbeq]
      rw [hrec]
      refine ih ?_
      rcases List.mem_cons.1 hc with h2 | h2
      · exact absurd h2 h
      · exact h2

/-- pandas mean of n identical values (or of n NaNs) is that value (or NaN). -/
theorem meanOpt_replicate (n : ℕ) (hn : 0 < n) (v : Option ℚ) :
    meanOpt (List.replicate n v) = v := by
  cases v with
  | none =>
    have h : List.filterMap id (List.replicate n (none : Option ℚ)) = [] := by
      induction n with
      | zero => rfl
      | succ k ih => simp [List.replicate_succ, ih]
    simp [meanOpt, h]
  | some q =>
    have h : List.filterMap id (List.replicate n (some q)) = List.replicate n q := by
      induction n with
      | zero => rfl
      | succ k ih => simp [List.replicate_succ, ih]
    simp only [meanOpt, h]
    rw [if_neg (by cases n with
      | zero => omega
      | succ k => simp [List.replicate_succ])]
    rw [List.sum_replicate, List.length_replicate]
    congr 1
    rw [nsmul_eq_mul]
    field_simp

/-- Claim C3: on a series of N identical years (same (month, day) → values
template in every year, years distinct), month-across-years yields for every
observed calendar month exactly the record values that single-year
calendar-month aggregation yields for that month of any one of the years. -/
theorem monthly_cycle_identical_years (st : Station) (years : List ℕ)
    (tmpl : List TRow) (y0 m0 : ℕ)
    (hrows : st.rows = years.flatMap (fun y => tmpl.map (mkRow y)))
    (hnd : years.Nodup) (hy : y0 ∈ years) (hm : m0 ∈ tmpl.map TRow.m) :
    ∃ rc rm,
      (calculate_monthly_annual_cycle st none none).datos.find?
          (fun r => r.key == m0) = some rc ∧
      (calculate_monthly_average st none none).datos.find?
          (fun r => r.key == (y0, m0)) = some rm ∧
      rc.vals = rm.vals := by
  obtain ⟨t0, ht0, htm⟩ := List.mem_map.1 hm
  have hne : st.rows ≠ [] := by
    rw [hrows]
    intro hnil
    have hmem : mkRow y0 t0 ∈ years.flatMap (fun y => tmpl.map (mkRow y)) :=
      List.mem_flatMap.2 ⟨y0, hy, List.mem_map.2 ⟨t0, ht0, rfl⟩⟩
    rw [hnil] at hmem
    exact absurd hmem (List.not_mem_nil _)
  have h0 : st.rows.isEmpty = false := isEmpty_false_of_ne_nil hne
  have hfil : filter_data_by_date st.rows none none = st.rows := by
    simp [filter_data_by_date]
  have hk1 : (y0, m0) ∈ keysOf (pairLeB natLeB natLeB)
      (fun r => (r.date.y, r.date.m)) st.rows := by
    rw [hrows]
    exact (identRows_keys years tmpl y0 m0).2 ⟨hy, t0, ht0, htm⟩
  have hgv : ∀ y', y' ∈ years → ∀ c : String,
      (groupRows (fun r => (r.date.y, r.date.m)) st.rows (y', m0)).map
          (fun r => getVal r c)
        = (tmpl.filter (fun t => t.m = m0)).map (fun t => tval t c) := by
    intro y' hy' c
    rw [hrows, bind_group years tmpl y' m0 hnd hy', List.map_map]
    rfl
  -- the calendar-month side
  have hmA : (calculate_monthly_average st none none).datos
      = (keysOf (pairLeB natLeB natLeB) (fun r => (r.date.y, r.date.m)) st.rows).map
          (aggRecord (fun r => (r.date.y, r.date.m)) st.rows st.numericCols
            get_aggregation_map (fun k => some (pad4 k.1 ++ ("-") ++ pad2 k.2))) := by
    simp only [calculate_monthly_average, aggregateBy, hfil, h0, Bool.false_eq_true,
      if_false]
  have hfindm : (calculate_monthly_average st none none).datos.find?
      (fun r => r.key == (y0, m0))
      = some (aggRecord (fun r => (r.date.y, r.date.m)) st.rows st.numericCols
          get_aggregation_map (fun k => some (pad4 k.1 ++ ("-") ++ pad2 k.2)) (y0, m0)) := by
    rw [hmA]
    refine find?_map_key _ _ OutRec.key (fun k => ?_) _ hk1
    rfl
  have hrmvals : (aggRecord (fun r => (r.date.y, r.date.m)) st.rows st.numericCols
      get_aggregation_map (fun k => some (pad4 k.1 ++ ("-") ++ pad2 k.2)) (y0, m0)).vals
      = st.numericCols.map (fun c => (c, roundOpt2 (monthAgg tmpl m0 c))) := by
    simp only [aggRecord]
    apply List.map_congr_left
    intro c _
    rw [hgv y0 hy c]
    rfl
  -- the month-across-years side
  have hcA : (calculate_monthly_annual_cycle st none none).datos
      = (pass2 natLeB Prod.snd
          (pass1 (pairLeB natLeB natLeB) (fun r => (r.date.y, r.date.m)) st.rows
            st.numericCols cycle_agg_map) st.numericCols).map
        (fun x => (⟨x.1, none, x.2.map (fun cv => (cv.1, roundOpt2 cv.2))⟩ : OutRec ℕ)) := by
    simp only [calculate_monthly_annual_cycle, hfil, h0, Bool.false_eq_true, if_false]
  have hentry : ∀ x ∈ (pass1 (pairLeB natLeB natLeB) (fun r => (r.date.y, r.date.m))
      st.rows st.numericCols cycle_agg_map).filter (fun x => decide (x.1.2 = m0)),
      x.2 = st.numericCols.map (fun c => (c, monthAgg tmpl m0 c)) := by
    intro x hx
    obtain ⟨hxp, hxm⟩ := List.mem_filter.1 hx
    unfold pass1 at hxp
    obtain ⟨k, hkK, rfl⟩ := List.mem_map.1 hxp
    simp only [decide_eq_true_eq] at hxm
    have hk1y : k.1 ∈ years := by
      rw [hrows] at hkK
      exact ((identRows_keys years tmpl k.1 k.2).1 (by rwa [Prod.mk.eta])).1
    show st.numericCols.map _ = _
    apply List.map_congr_left
    intro c _
    have hkk : k = (k.1, m0) := by
      rw [← hxm]
    rw [hkk, hgv k.1 hk1y c]
    rfl
  have hm0K2 : m0 ∈ sortLe natLeB
      (((pass1 (pairLeB natLeB natLeB) (fun r => (r.date.y, r.date.m)) st.rows
          st.numericCols cycle_agg_map).map (fun x => x.1.2)).dedup) := by
    rw [mem_sortLe]
    apply List.mem_dedup.2
    apply List.mem_map.2
    refine ⟨((y0, m0), st.numericCols.map (fun c =>
      (c, aggApply (cycle_agg_map c) ((groupRows (fun r => (r.date.y, r.date.m))
        st.rows (y0, m0)).map (fun r => getVal r c))))), ?_, rfl⟩
    unfold pass1
    exact List.mem_map.2 ⟨(y0, m0), hk1, rfl⟩
  have hfindc : (calculate_monthly_annual_cycle st none none).datos.find?
      (fun r => r.key == m0)
      = some ⟨m0, none, (st.numericCols.map (fun c =>
          (c, meanOpt (((pass1 (pairLeB natLeB natLeB) (fun r => (r.date.y, r.date.m))
              st.rows st.numericCols cycle_agg_map).filter
              (fun x => decide (x.1.2 = m0))).map (fun x => lookupVal x.2 c))))).map
          (fun cv => (cv.1, roundOpt2 cv.2))⟩ := by
    rw [hcA]
    unfold pass2
    rw [List.map_map]
    refine find?_map_key _ _ OutRec.key (fun k => ?_) _ hm0K2
    rfl
  have hx0 : ((y0, m0), st.numericCols.map (fun c =>
      (c, aggApply (cycle_agg_map c) ((groupRows (fun r => (r.date.y, r.date.m))
        st.rows (y0, m0)).map (fun r => getVal r c)))))
      ∈ (pass1 (pairLeB natLeB natLeB) (fun r => (r.date.y, r.date.m)) st.rows
          st.numericCols cycle_agg_map).filter (fun x => decide (x.1.2 = m0)) := by
    apply List.mem_filter.2
    constructor
    · unfold pass1
      exact List.mem_map.2 ⟨(y0, m0), hk1, rfl⟩
    · simp
  have hval : ∀ c ∈ st.numericCols,
      meanOpt (((pass1 (pairLeB natLeB natLeB) (fun r => (r.date.y, r.date.m))
          st.rows st.numericCols cycle_agg_map).filter
          (fun x => decide (x.1.2 = m0))).map (fun x => lookupVal x.2 c))
        = monthAgg tmpl m0 c := by
    intro c hc
    have hconst : ∀ b ∈ ((pass1 (pairLeB natLeB natLeB) (fun r => (r.date.y, r.date.m))
        st.rows st.numericCols cycle_agg_map).filter
        (fun x => decide (x.1.2 = m0))).map (fun x => lookupVal x.2 c),
        b = monthAgg tmpl m0 c := by
      intro b hb
      obtain ⟨x, hx, rfl⟩ := List.mem_map.1 hb
      rw [hentry x hx]
      unfold lookupVal
      rw [lookup_map_self st.numericCols (fun c2 => monthAgg tmpl m0 c2) c hc]
      rfl
    rw [List.eq_replicate_of_mem hconst]
    apply meanOpt_replicate
    rw [List.length_map]
    exact List.length_pos.2 (List.ne_nil_of_mem hx0)
  refine ⟨_, _, hfindc, hfindm, ?_⟩
  rw [hrmvals]
  show (st.numericCols.map _).map _ = _
  rw [List.map_map]
  apply List.map_congr_left
  intro c hc
  show (c, roundOpt2 (meanOpt _)) = (c, roundOpt2 (monthAgg tmpl m0 c))
  rw [hval c hc]

/-- Witness for C3: on the two identical years of st3, the month-across-years
record for June carries exactly the values of the single-year calendar-month
record for June 2000. -/
theorem monthly_cycle_identical_years_witness :
    ((calculate_monthly_annual_cycle st3 none none).datos.find?
        (fun r => r.key == 6)).map (fun r => r.vals)
      = ((calculate_monthly_average st3 none none).datos.find?
          (fun r => r.key == ((2000 : ℕ), (6 : ℕ)))).map (fun r => r.vals) ∧
    ((calculate_monthly_annual_cycle st3 none none).datos.find?
        (fun r => r.key == 6)).isSome = true := by
  obtain ⟨rc, rm, h1, h2, h3⟩ := monthly_cycle_identical_years st3 [2000, 2001] tmpl3
    2000 6 rfl (by decide) (by decide) (by decide)
  rw [h1, h2]
  exact ⟨by simp [h3], rfl⟩

end Clicom
